import Mathlib

/-!
Verification development for the Lavis icon-generation script
(`frontend/scripts/generate-icon.py`).

The script is a linear driver: for each (base_size, scale) pair in a fixed
list it renders an SVG descriptor (a pure string template of the size),
writes it to a temporary file, converts it to a PNG by trying three external
tools in order (rsvg-convert, then qlmanage, then ImageMagick convert),
removes the temporary file, and finally copies the 1024px bitmap out and
assembles the iconset with iconutil.

Shallow embedding used here:
  * The file system is a partial map from path strings to content strings.
  * Python floats are modelled as exact rationals (the literal 0.22 becomes
    22/100, and so on); for every size the script actually uses (powers of
    two) the float products are exact, so no claim depends on rounding.
  * Each external tool invocation is an oracle in an `Env` record giving the
    outcome of that invocation at a given pixel size.  `SpawnResult`
    distinguishes the two exceptions `subprocess.run(..., check=True)` can
    raise (CalledProcessError, FileNotFoundError); the script catches both
    for the first tool and catches everything (bare `except:`) for the
    second and third, so the embedded control flow matches every handler in
    the source.  `qlmanage` may exit successfully without producing its
    output file, which the script probes with `ql_output.exists()`; the
    `QlResult` type exposes that case.  `iconutil` is a macOS built-in (the
    script targets macOS), so its invocation outcome is success or
    CalledProcessError; the driver catches the latter, hence the embedded
    `main` is a total function — no exception escapes it.
  * `print` calls are accumulated in a log (newest line first); subprocess
    invocations are accumulated in a `calls` trace (newest first) so that
    "tool X was never invoked" is expressible.
-/

/-- Spawn outcome of a `subprocess.run(..., check=True)` call: normal exit,
`CalledProcessError` (nonzero exit status), or `FileNotFoundError` (binary
absent). -/
inductive SpawnResult where
  | ok : SpawnResult
  | calledProcessError : SpawnResult
  | fileNotFound : SpawnResult
deriving DecidableEq, Repr

/-- Outcome of the `qlmanage` invocation: success with its output file
written, success without the output file appearing (the script explicitly
probes `ql_output.exists()`), or any raised exception (caught by the bare
`except:`). -/
inductive QlResult where
  | okOutput : QlResult
  | okNoOutput : QlResult
  | failed : QlResult
deriving DecidableEq, Repr

/-- Oracles for the external tools, indexed by the actual pixel size passed
on their command line.  `convert` and `iconutil` report plain success or
failure: their failures are treated uniformly by the script (bare `except:`
for `convert`; `except subprocess.CalledProcessError` for the macOS built-in
`iconutil`). -/
structure Env where
  rsvg : Nat → SpawnResult
  qlmanage : Nat → QlResult
  convert : Nat → Bool
  iconutil : Bool

/-- File system: map from path to file content. -/
def FS : Type := String → Option String

/-- Write (create or overwrite) a file. -/
def fsWrite (fs : FS) (p c : String) : FS :=
  fun q => if q = p then some c else fs q

/-- `Path.unlink(missing_ok=True)`: remove a file if present. -/
def fsRemove (fs : FS) (p : String) : FS :=
  fun q => if q = p then none else fs q

/-- `Path.rename`: move the content of `src` to `dst` (callers guard on
existence of `src`). -/
def fsRename (fs : FS) (src dst : String) : FS :=
  fun q => if q = dst then fs src else if q = src then none else fs q

/-- Program state: the file system, the printed log (newest line first) and
the trace of subprocess invocations `(tool, size)` (newest first). -/
structure St where
  fs : FS
  log : List String
  calls : List (String × Nat)

/-- BUILD_DIR of the script, modelled relative to the frontend directory. -/
def BUILD_DIR : String := "build"

/-- ICONSET_DIR = BUILD_DIR / "icon.iconset". -/
def ICONSET_DIR : String := "build/icon.iconset"

/-- Background colour constant of the script. -/
def BACKGROUND_COLOR : String := "#1a1a1a"

/-- Gold colour constant of the script. -/
def L_COLOR : String := "#d4a853"

/-- Corner-radius ratio 0.22, modelled exactly. -/
def CORNER_RADIUS_RATIO : ℚ := 22 / 100

/-- The fixed list of (base_size, scale) entries. -/
def SIZES : List (Nat × Nat) :=
  [(16, 1), (16, 2),
   (32, 1), (32, 2),
   (64, 1), (64, 2),
   (128, 1), (128, 2),
   (256, 1), (256, 2),
   (512, 1), (512, 2),
   (1024, 1)]

/-- The numeric and declared-dimension parameters interpolated into the SVG
template by `generate_svg`: the `width`/`height`/`viewBox` slots (the integer
`size`), the local variables `corner_radius`, `padding`, `l_width`,
`l_height`, `stroke_width`, `l_x`, `l_y`, and the filter's blur and offset
amounts `size * 0.02`, `size * 0.01`. -/
structure SvgDoc where
  width : Nat
  height : Nat
  viewBoxW : Nat
  viewBoxH : Nat
  cornerRadius : ℚ
  padding : ℚ
  lWidth : ℚ
  lHeight : ℚ
  strokeWidth : ℚ
  lX : ℚ
  lY : ℚ
  blurStd : ℚ
  offsetDx : ℚ
  offsetDy : ℚ

/-- The parameter computation of `generate_svg(size)`, line for line:
`corner_radius = size * CORNER_RADIUS_RATIO`, `padding = size * 0.22`,
`l_width = size * 0.45`, `l_height = size * 0.56`,
`stroke_width = size * 0.12`, `l_x = padding`, `l_y = padding`, and the
template slots `width="{size}" height="{size}" viewBox="0 0 {size} {size}"`
(braces as in the Python f-string). -/
def svgDoc (size : Nat) : SvgDoc :=
  { width := size
    height := size
    viewBoxW := size
    viewBoxH := size
    cornerRadius := (size : ℚ) * CORNER_RADIUS_RATIO
    padding := (size : ℚ) * (22 / 100)
    lWidth := (size : ℚ) * (45 / 100)
    lHeight := (size : ℚ) * (56 / 100)
    strokeWidth := (size : ℚ) * (12 / 100)
    lX := (size : ℚ) * (22 / 100)
    lY := (size : ℚ) * (22 / 100)
    blurStd := (size : ℚ) * (2 / 100)
    offsetDx := (size : ℚ) * (1 / 100)
    offsetDy := (size : ℚ) * (1 / 100) }

/-- Decimal rendering of the rational parameters when interpolated into the
template.  All values the script produces have denominator dividing 100, and
for the power-of-two sizes in `SIZES` the Python float arithmetic is exact,
so this exact-decimal rendering agrees with Python on the integer and
leading fractional digits; no claim depends on the exact low-order float
digits. -/
def fmtQ (q : ℚ) : String :=
  if q.den = 1 then toString q.num ++ ".0"
  else if 100 % q.den = 0 then
    let h : Int := q.num * ((100 / q.den : Nat) : Int)
    let sgn := if h < 0 then ("-") else ("")
    let a := h.natAbs
    let ip := a / 100
    let fr := a % 100
    if fr % 10 = 0 then sgn ++ toString ip ++ "." ++ toString (fr / 10)
    else if fr < 10 then sgn ++ toString ip ++ ".0" ++ toString fr
    else sgn ++ toString ip ++ "." ++ toString fr
  else toString q

/-- The `viewBox="0 0 {size} {size}"` attribute value. -/
def viewBoxText (d : SvgDoc) : String :=
  "0 0 " ++ toString d.viewBoxW ++ " " ++ toString d.viewBoxH

/-- The `l_path` local of `generate_svg` after the `.strip()` applied in the
template: move to the stroke's top, line down the left, line along the
bottom. -/
def lPathText (d : SvgDoc) : String :=
  "M " ++ fmtQ (d.lX + d.strokeWidth / 2) ++ " " ++ fmtQ d.lY ++
  "\n    L " ++ fmtQ (d.lX + d.strokeWidth / 2) ++ " " ++
  fmtQ (d.lY + d.lHeight - d.strokeWidth / 2) ++
  "\n    L " ++ fmtQ (d.lX + d.lWidth) ++ " " ++
  fmtQ (d.lY + d.lHeight - d.strokeWidth / 2)

/-- The SVG f-string template of `generate_svg`, with every interpolation
slot filled from the `SvgDoc`. -/
def renderSvg (d : SvgDoc) : String :=
  "<?xml version=\"1.0\" encoding=\"UTF-8\"?>\n<svg width=\"" ++
  toString d.width ++ "\" height=\"" ++ toString d.height ++
  "\" viewBox=\"" ++ viewBoxText d ++
  "\" xmlns=\"http://www.w3.org/2000/svg\">\n  <defs>\n" ++
  "    <linearGradient id=\"bgGrad\" x1=\"0%\" y1=\"0%\" x2=\"100%\" y2=\"100%\">\n" ++
  "      <stop offset=\"0%\" style=\"stop-color:#242424\"/>\n" ++
  "      <stop offset=\"100%\" style=\"stop-color:#1a1a1a\"/>\n" ++
  "    </linearGradient>\n\n" ++
  "    <linearGradient id=\"lGrad\" x1=\"0%\" y1=\"0%\" x2=\"100%\" y2=\"100%\">\n" ++
  "      <stop offset=\"0%\" style=\"stop-color:#e8c068\"/>\n" ++
  "      <stop offset=\"50%\" style=\"stop-color:#d4a853\"/>\n" ++
  "      <stop offset=\"100%\" style=\"stop-color:#c49a48\"/>\n" ++
  "    </linearGradient>\n\n" ++
  "    <filter id=\"innerShadow\" x=\"-50%\" y=\"-50%\" width=\"200%\" height=\"200%\">\n" ++
  "      <feGaussianBlur in=\"SourceAlpha\" stdDeviation=\"" ++ fmtQ d.blurStd ++
  "\" result=\"blur\"/>\n" ++
  "      <feOffset dx=\"" ++ fmtQ d.offsetDx ++ "\" dy=\"" ++ fmtQ d.offsetDy ++
  "\"/>\n" ++
  "      <feComposite in2=\"SourceAlpha\" operator=\"arithmetic\" k2=\"-1\" k3=\"1\"/>\n" ++
  "      <feColorMatrix type=\"matrix\" values=\"0 0 0 0 0  0 0 0 0 0  0 0 0 0 0  0 0 0 0.3 0\"/>\n" ++
  "      <feBlend in2=\"SourceGraphic\"/>\n" ++
  "    </filter>\n  </defs>\n\n" ++
  "  <rect x=\"0\" y=\"0\" width=\"" ++ toString d.width ++ "\" height=\"" ++
  toString d.height ++ "\" rx=\"" ++ fmtQ d.cornerRadius ++ "\" ry=\"" ++
  fmtQ d.cornerRadius ++ "\" fill=\"url(#bgGrad)\"/>\n\n" ++
  "  <path d=\"" ++ lPathText d ++ "\"\n        fill=\"none\"\n" ++
  "        stroke=\"url(#lGrad)\"\n        stroke-width=\"" ++
  fmtQ d.strokeWidth ++
  "\"\n        stroke-linecap=\"round\"\n        stroke-linejoin=\"round\"\n" ++
  "        filter=\"url(#innerShadow)\"/>\n</svg>"

/-- `generate_svg(size)`: pure string construction from the size alone. -/
def generate_svg (size : Nat) : String :=
  renderSvg (svgDoc size)

/-- `actual_size = base_size * scale` computed by the driver loop. -/
def actualSize (e : Nat × Nat) : Nat := e.1 * e.2

/-- `filename = f"icon_{base_size}x{base_size}{suffix}.png"` with
`suffix = f"@{scale}x" if scale > 1 else ""`. -/
def targetName (e : Nat × Nat) : String :=
  "icon_" ++ toString e.1 ++ "x" ++ toString e.1 ++
  (if 1 < e.2 then ("@" ++ toString e.2 ++ "x") else ("")) ++ ".png"

/-- Path in ICONSET_DIR. -/
def iconsetPath (n : String) : String := ICONSET_DIR ++ "/" ++ n

/-- Path in BUILD_DIR. -/
def buildPath (n : String) : String := BUILD_DIR ++ "/" ++ n

/-- `svg_path = ICONSET_DIR / f"temp_{actual_size}.svg"`. -/
def svgPathOf (e : Nat × Nat) : String :=
  iconsetPath ("temp_" ++ toString (actualSize e) ++ ".svg")

/-- `ql_output = ICONSET_DIR / f"temp_{actual_size}.svg.png"`. -/
def qlPathOf (e : Nat × Nat) : String :=
  iconsetPath ("temp_" ++ toString (actualSize e) ++ ".svg.png")

/-- `filepath = ICONSET_DIR / filename`. -/
def targetPathOf (e : Nat × Nat) : String := iconsetPath (targetName e)

/-- Opaque stand-in for the PNG bytes a tool writes. -/
def pngData (tool : String) (a : Nat) : String :=
  "PNG-" ++ tool ++ "-" ++ toString a

/-- `print(f"   ✓ {filename} ({actual_size}x{actual_size})")`. -/
def successLine (e : Nat × Nat) : String :=
  "   ✓ " ++ targetName e ++ " (" ++ toString (actualSize e) ++ "x" ++
  toString (actualSize e) ++ ")"

/-- `print(f"   ⚠️  Could not convert {filename}, trying alternative...")`. -/
def warnLine (e : Nat × Nat) : String :=
  "   ⚠️  Could not convert " ++ targetName e ++ ", trying alternative..."

/-- `print(f"   ❌ Failed to generate {filename}")`. -/
def failLine (e : Nat × Nat) : String :=
  "   ❌ Failed to generate " ++ targetName e

/-- `print(f"   ❌ Failed to generate icon.icns: {e}")`. -/
def icnsFailLine : String :=
  "   ❌ Failed to generate icon.icns: CalledProcessError"

/-- First step of the loop body: `generate_svg(actual_size)` written to the
temporary descriptor path. -/
def writeDescriptor (st : St) (e : Nat × Nat) : St :=
  { st with fs := fsWrite st.fs (svgPathOf e) (generate_svg (actualSize e)) }

/-- Tail of a successful conversion attempt:
`svg_path.unlink(missing_ok=True)` followed by the per-entry success print. -/
def finish (st : St) (e : Nat × Nat) : St :=
  { st with fs := fsRemove st.fs (svgPathOf e),
            log := successLine e :: st.log }

/-- After `qlmanage` exits normally: `if ql_output.exists():
ql_output.rename(filepath)`, then the common tail. -/
def afterQl (st : St) (e : Nat × Nat) : St :=
  let fs1 := if (st.fs (qlPathOf e)).isSome
    then fsRename st.fs (qlPathOf e) (targetPathOf e) else st.fs
  finish { st with fs := fs1 } e

/-- One iteration of the `for base_size, scale in SIZES:` loop: write the
descriptor, then the try/except chain `rsvg-convert` → `qlmanage` →
`convert`, where total failure prints the failure line and `continue`s
(skipping both the unlink and the success print). -/
def processEntry (env : Env) (st : St) (e : Nat × Nat) : St :=
  let a := actualSize e
  let st1 := { writeDescriptor st e with calls := ("rsvg-convert", a) :: st.calls }
  match env.rsvg a with
  | SpawnResult.ok =>
      finish { st1 with fs := fsWrite st1.fs (targetPathOf e) (pngData ("rsvg-convert") a) } e
  | _ =>
      let st2 := { st1 with calls := ("qlmanage", a) :: st1.calls }
      match env.qlmanage a with
      | QlResult.okOutput =>
          afterQl { st2 with fs := fsWrite st2.fs (qlPathOf e) (pngData ("qlmanage") a) } e
      | QlResult.okNoOutput => afterQl st2 e
      | QlResult.failed =>
          let st3 := { st2 with log := warnLine e :: st2.log,
                                calls := ("convert", a) :: st2.calls }
          if env.convert a then
            finish { st3 with fs := fsWrite st3.fs (targetPathOf e) (pngData ("convert") a) } e
          else
            { st3 with log := failLine e :: st3.log }

/-- The three tools all fail for entry `e` under `env`. -/
def allFail (env : Env) (e : Nat × Nat) : Prop :=
  env.rsvg (actualSize e) ≠ SpawnResult.ok ∧
  env.qlmanage (actualSize e) = QlResult.failed ∧
  env.convert (actualSize e) = false

instance (env : Env) (e : Nat × Nat) : Decidable (allFail env e) := by
  unfold allFail; infer_instance

/-- Initial state: empty build directory and the banner prints (newest
first). -/
def initSt : St :=
  { fs := fun _ => none
    log := ["", "   L Color: " ++ L_COLOR, "   Background: " ++ BACKGROUND_COLOR,
            "   Design: Dark background + Gold L", "🎨 Generating Lavis icon..."]
    calls := [] }

/-- State after the whole `for base_size, scale in SIZES:` loop. -/
def afterEntries (env : Env) : St :=
  List.foldl (processEntry env) initSt SIZES

/-- The standalone-copy step: if `icon_1024x1024.png` exists in the iconset,
copy it to BUILD_DIR as `icon_1024.png` and print; otherwise do nothing at
all. -/
def copyStandalone (st : St) : St :=
  match st.fs (iconsetPath ("icon_1024x1024.png")) with
  | some c =>
      { st with fs := fsWrite st.fs (buildPath ("icon_1024.png")) c,
                log := ("   ✓ icon_1024.png") :: st.log }
  | none => st

/-- State after the standalone-copy step. -/
def afterCopy (env : Env) : St := copyStandalone (afterEntries env)

/-- The `iconutil -c icns` step: blank line and banner, then on success the
container file is written and a success line printed; on
CalledProcessError the failure is printed and nothing else happens. -/
def icnsStep (env : Env) (st : St) : St :=
  let st1 := { st with log := ("📦 Generating icon.icns...") :: ("") :: st.log }
  if env.iconutil then
    { st1 with fs := fsWrite st1.fs (buildPath ("icon.icns")) ("ICNS"),
               log := ("   ✓ icon.icns") :: st1.log }
  else
    { st1 with log := icnsFailLine :: st1.log }

/-- Final prints of `main`. -/
def finalize (st : St) : St :=
  { st with log := ("   Output: " ++ BUILD_DIR) ::
                   ("✅ Icon generation complete!") :: ("") :: st.log }

/-- The whole driver `main()` (named `mainRun` because Lean reserves the
plain name `main` for an executable entry point). -/
def mainRun (env : Env) : St :=
  finalize (icnsStep env (afterCopy env))

/-- Environment in which every tool invocation fails (rsvg-convert raises
CalledProcessError, qlmanage raises, convert raises, iconutil raises
CalledProcessError). -/
def envAllFail : Env :=
  { rsvg := fun _ => SpawnResult.calledProcessError
    qlmanage := fun _ => QlResult.failed
    convert := fun _ => false
    iconutil := false }

/-- Environment in which rsvg-convert succeeds everywhere and everything
else would fail. -/
def envRsvgOk : Env :=
  { rsvg := fun _ => SpawnResult.ok
    qlmanage := fun _ => QlResult.failed
    convert := fun _ => false
    iconutil := true }

/-- Environment for the qlmanage no-output scenario: rsvg-convert is absent,
qlmanage exits normally without writing its output file. -/
def envQlNoOutput : Env :=
  { rsvg := fun _ => SpawnResult.fileNotFound
    qlmanage := fun _ => QlResult.okNoOutput
    convert := fun _ => false
    iconutil := true }

/-- A state whose iconset already holds the 1024px bitmap. -/
def stWith1024 : St :=
  { fs := fsWrite (fun _ => none) (iconsetPath ("icon_1024x1024.png")) (pngData ("rsvg-convert") 1024)
    log := []
    calls := [] }

/-- When all three tools fail, the loop body reduces to: write the
descriptor, record the three invocations, print the warning and failure
lines, and `continue` — no cleanup, no success print. -/
theorem processEntry_allFail (env : Env) (st : St) (e : Nat × Nat) (h : allFail env e) :
    processEntry env st e =
      { fs := fsWrite st.fs (svgPathOf e) (generate_svg (actualSize e)),
        log := failLine e :: warnLine e :: st.log,
        calls := ("convert", actualSize e) :: ("qlmanage", actualSize e) ::
                 ("rsvg-convert", actualSize e) :: st.calls } := by
  obtain ⟨h1, h2, h3⟩ := h
  cases hr : env.rsvg (actualSize e) with
  | ok => exact absurd hr h1
  | calledProcessError => simp [processEntry, writeDescriptor, hr, h2, h3]
  | fileNotFound => simp [processEntry, writeDescriptor, hr, h2, h3]

/-- Frame property: one loop iteration touches only its own three paths
(temporary descriptor, qlmanage output, target bitmap). -/
theorem processEntry_fs_frame (env : Env) (st : St) (e : Nat × Nat) (p : String)
    (h1 : p ≠ svgPathOf e) (h2 : p ≠ qlPathOf e) (h3 : p ≠ targetPathOf e) :
    (processEntry env st e).fs p = st.fs p := by
  cases hr : env.rsvg (actualSize e) <;>
    cases hq : env.qlmanage (actualSize e) <;>
      cases hc : env.convert (actualSize e) <;>
        first
        | (simp [processEntry, writeDescriptor, finish, afterQl, fsWrite, fsRemove,
                 fsRename, hr, hq, hc, h1, h2, h3]; done)
        | (simp [processEntry, writeDescriptor, finish, afterQl, hr, hq, hc];
           split_ifs <;>
             simp [fsRename, fsWrite, fsRemove, h1, h2, h3])

/-- Each loop iteration only prepends to the log. -/
theorem processEntry_log_extend (env : Env) (st : St) (e : Nat × Nat) :
    ∃ pre, (processEntry env st e).log = pre ++ st.log := by
  cases hr : env.rsvg (actualSize e) <;>
    cases hq : env.qlmanage (actualSize e) <;>
      cases hc : env.convert (actualSize e) <;>
        simp [processEntry, writeDescriptor, finish, afterQl, hr, hq, hc] <;>
          first
          | exact ⟨[successLine e], rfl⟩
          | exact ⟨[successLine e, warnLine e], rfl⟩
          | exact ⟨[failLine e, warnLine e], rfl⟩

/-- Each loop iteration ends in exactly one of the two terminal prints for
its entry: the success line or the failure line. -/
theorem processEntry_terminal (env : Env) (st : St) (e : Nat × Nat) :
    successLine e ∈ (processEntry env st e).log ∨
    failLine e ∈ (processEntry env st e).log := by
  cases hr : env.rsvg (actualSize e) <;>
    cases hq : env.qlmanage (actualSize e) <;>
      cases hc : env.convert (actualSize e) <;>
        simp [processEntry, writeDescriptor, finish, afterQl, hr, hq, hc,
              List.mem_cons]

/-- The whole loop only prepends to the log. -/
theorem foldl_log_extend (env : Env) (l : List (Nat × Nat)) (st : St) :
    ∃ pre, (List.foldl (processEntry env) st l).log = pre ++ st.log := by
  induction l generalizing st with
  | nil => exact ⟨[], rfl⟩
  | cons e l ih =>
      obtain ⟨p1, hp1⟩ := processEntry_log_extend env st e
      obtain ⟨p2, hp2⟩ := ih (processEntry env st e)
      exact ⟨p2 ++ p1, by simp [List.foldl_cons, hp2, hp1]⟩

/-- Log lines survive the rest of the loop. -/
theorem mem_log_foldl (env : Env) (l : List (Nat × Nat)) (st : St) (x : String)
    (hx : x ∈ st.log) : x ∈ (List.foldl (processEntry env) st l).log := by
  obtain ⟨p, hp⟩ := foldl_log_extend env l st
  rw [hp]
  exact List.mem_append_right p hx

/-- A line that every iteration for entry `e` would print is in the log
after any loop pass containing `e`. -/
theorem foldl_log_attains (env : Env) (x : String) (e : Nat × Nat)
    (hstep : ∀ st : St, x ∈ (processEntry env st e).log) :
    ∀ (l : List (Nat × Nat)) (st : St), e ∈ l →
      x ∈ (List.foldl (processEntry env) st l).log := by
  intro l
  induction l with
  | nil => intro st h; exact absurd h (List.not_mem_nil e)
  | cons a l ih =>
      intro st h
      rcases List.mem_cons.mp h with h | h
      · subst h; exact mem_log_foldl env l _ x (hstep st)
      · exact ih _ h

/-- Disjunctive variant of `foldl_log_attains`. -/
theorem foldl_log_attains_or (env : Env) (x y : String) (e : Nat × Nat)
    (hstep : ∀ st : St, x ∈ (processEntry env st e).log ∨
      y ∈ (processEntry env st e).log) :
    ∀ (l : List (Nat × Nat)) (st : St), e ∈ l →
      x ∈ (List.foldl (processEntry env) st l).log ∨
      y ∈ (List.foldl (processEntry env) st l).log := by
  intro l
  induction l with
  | nil => intro st h; exact absurd h (List.not_mem_nil e)
  | cons a l ih =>
      intro st h
      rcases List.mem_cons.mp h with h | h
      · subst h
        rcases hstep st with hs | hs
        · exact Or.inl (mem_log_foldl env l _ x hs)
        · exact Or.inr (mem_log_foldl env l _ y hs)
      · exact ih _ h

/-- The standalone-copy step keeps existing log lines. -/
theorem copyStandalone_log_mem (st : St) (x : String) (h : x ∈ st.log) :
    x ∈ (copyStandalone st).log := by
  unfold copyStandalone
  cases hm : st.fs (iconsetPath ("icon_1024x1024.png")) <;> simp [h, List.mem_cons]

/-- The iconutil step keeps existing log lines. -/
theorem icnsStep_log_mem (env : Env) (st : St) (x : String) (h : x ∈ st.log) :
    x ∈ (icnsStep env st).log := by
  cases hi : env.iconutil <;> simp [icnsStep, hi, h, List.mem_cons]

/-- The final prints keep existing log lines. -/
theorem finalize_log_mem (st : St) (x : String) (h : x ∈ st.log) :
    x ∈ (finalize st).log := by
  simp [finalize, h, List.mem_cons]

/-- Any line in the log after the loop is in the final log. -/
theorem mem_log_mainRun (env : Env) (x : String)
    (h : x ∈ (afterEntries env).log) : x ∈ (mainRun env).log := by
  unfold mainRun afterCopy
  exact finalize_log_mem _ _ (icnsStep_log_mem env _ x (copyStandalone_log_mem _ x h))

/-- The standalone-copy step writes only `build/icon_1024.png`. -/
theorem copyStandalone_fs_frame (st : St) (p : String)
    (h : p ≠ buildPath ("icon_1024.png")) : (copyStandalone st).fs p = st.fs p := by
  unfold copyStandalone
  cases hm : st.fs (iconsetPath ("icon_1024x1024.png")) <;> simp [fsWrite, h]

/-- The iconutil step writes only `build/icon.icns`. -/
theorem icnsStep_fs_frame (env : Env) (st : St) (p : String)
    (h : p ≠ buildPath ("icon.icns")) : (icnsStep env st).fs p = st.fs p := by
  cases hi : env.iconutil <;> simp [icnsStep, hi, fsWrite, h]

/-- The final prints do not touch the file system. -/
theorem finalize_fs (st : St) : (finalize st).fs = st.fs := rfl

/-- Under total failure an iteration leaves every path except its own
temporary descriptor untouched. -/
theorem processEntry_allFail_fs (env : Env) (st : St) (e : Nat × Nat) (p : String)
    (hf : allFail env e) (hp : p ≠ svgPathOf e) :
    (processEntry env st e).fs p = st.fs p := by
  rw [processEntry_allFail env st e hf]
  simp [fsWrite, hp]

/-- Under total failure an iteration prints the failure line. -/
theorem processEntry_allFail_log (env : Env) (st : St) (e : Nat × Nat)
    (hf : allFail env e) : failLine e ∈ (processEntry env st e).log := by
  rw [processEntry_allFail env st e hf]
  simp [List.mem_cons]

/-- If entry `ee` fails completely, its target path stays absent through the
whole loop (no other entry writes it). -/
theorem foldl_fs_none (env : Env) (ee : Nat × Nat) (hf : allFail env ee)
    (hne : targetPathOf ee ≠ svgPathOf ee) :
    ∀ (l : List (Nat × Nat)) (st : St),
      (∀ e ∈ l, e = ee ∨ (targetPathOf ee ≠ svgPathOf e ∧
        targetPathOf ee ≠ qlPathOf e ∧ targetPathOf ee ≠ targetPathOf e)) →
      st.fs (targetPathOf ee) = none →
      (List.foldl (processEntry env) st l).fs (targetPathOf ee) = none := by
  intro l
  induction l with
  | nil => intro st _ h0; exact h0
  | cons a l ih =>
      intro st hl h0
      refine ih _ (fun e he => hl e (List.mem_cons_of_mem a he)) ?_
      rcases hl a (List.mem_cons_self a l) with h | ⟨h1, h2, h3⟩
      · subst h
        rw [processEntry_allFail_fs env st a (targetPathOf a) hf hne]
        exact h0
      · rw [processEntry_fs_frame env st a (targetPathOf ee) h1 h2 h3]
        exact h0

/-- Path disambiguation over the fixed size list: an entry's target bitmap
path differs from every temporary path, from both post-loop build outputs,
and from every other entry's paths. -/
theorem sizesPaths_distinct :
    ∀ e ∈ SIZES,
      (targetPathOf e ≠ svgPathOf e ∧ targetPathOf e ≠ qlPathOf e ∧
       qlPathOf e ≠ svgPathOf e ∧
       targetPathOf e ≠ buildPath ("icon_1024.png") ∧
       targetPathOf e ≠ buildPath ("icon.icns")) ∧
      ∀ f ∈ SIZES, e ≠ f →
        (targetPathOf e ≠ svgPathOf f ∧ targetPathOf e ≠ qlPathOf f ∧
         targetPathOf e ≠ targetPathOf f) := by decide

/-- C1 (counterexample): the claim "after the conversion attempt for a Size
Entry completes — whether the conversion succeeded or all tools failed — the
temporary descriptor file no longer exists" is false at entry (16, 1) in an
environment where all three tools fail: the `continue` in the innermost
`except:` handler skips `svg_path.unlink(missing_ok=True)`, so
`temp_16.svg` is still on disk when the driver moves to the next entry. -/
theorem spec_c1_counterexample :
    allFail envAllFail (16, 1) ∧
    ((processEntry envAllFail initSt (16, 1)).fs (svgPathOf (16, 1))).isSome = true := by
  constructor
  · decide
  · decide

/-- C1 (amended): for every Size Entry, after the conversion attempt the
temporary descriptor file `temp_<actual_size>.svg` no longer exists before
the driver moves to the next entry — unless all three tools failed for that
entry, in which case the `continue` skips the cleanup and the file remains
on disk (holding the freshly generated descriptor). -/
theorem spec_c1 (env : Env) (st : St) (e : Nat × Nat) (he : e ∈ SIZES) :
    (¬ allFail env e → (processEntry env st e).fs (svgPathOf e) = none) ∧
    (allFail env e →
      (processEntry env st e).fs (svgPathOf e) = some (generate_svg (actualSize e))) := by
  constructor
  · intro h
    cases hr : env.rsvg (actualSize e) <;>
      cases hq : env.qlmanage (actualSize e) <;>
        cases hc : env.convert (actualSize e) <;>
          first
          | (simp [processEntry, writeDescriptor, finish, afterQl, fsRemove,
                   fsWrite, fsRename, hr, hq, hc]; done)
          | exact absurd ⟨by simp [hr], hq, hc⟩ h
  · intro h
    rw [processEntry_allFail env st e h]
    simp [fsWrite]

/-- C1 witness: at entry (16, 1) with rsvg-convert succeeding, the temporary
descriptor is gone after the attempt. -/
theorem spec_c1_witness :
    ((16, 1) ∈ SIZES ∧ ¬ allFail envRsvgOk (16, 1)) ∧
    (processEntry envRsvgOk initSt (16, 1)).fs (svgPathOf (16, 1)) = none := by
  exact ⟨⟨by decide, by decide⟩,
    (spec_c1 envRsvgOk initSt (16, 1) (by decide)).1 (by decide)⟩

/-- C2: if the final `iconutil` invocation fails, the driver logs the
failure, the file system is left exactly as it was after the copy step (so
every previously produced bitmap remains on disk — no rollback), and the
run completes (the embedded driver is a total function; the handler catches
the error). -/
theorem spec_c2 (env : Env) (h : env.iconutil = false) :
    icnsFailLine ∈ (mainRun env).log ∧
    (mainRun env).fs = (afterCopy env).fs ∧
    ∀ p c, (afterCopy env).fs p = some c → (mainRun env).fs p = some c := by
  refine ⟨?_, ?_, ?_⟩
  · simp [mainRun, finalize, icnsStep, h, List.mem_cons]
  · simp [mainRun, finalize, icnsStep, h]
  · intro p c hc
    simp [mainRun, finalize, icnsStep, h, hc]

/-- C2 witness: concrete failing iconutil invocation. -/
theorem spec_c2_witness :
    envAllFail.iconutil = false ∧ icnsFailLine ∈ (mainRun envAllFail).log := by
  exact ⟨rfl, (spec_c2 envAllFail rfl).1⟩

/-- C3: for every Size Entry, if the rsvg-convert invocation succeeds,
neither qlmanage nor convert is invoked for that entry: the iteration's
entire subprocess trace is the single rsvg-convert call. -/
theorem spec_c3 (env : Env) (st : St) (e : Nat × Nat) (he : e ∈ SIZES)
    (h : env.rsvg (actualSize e) = SpawnResult.ok) :
    (processEntry env st e).calls = ("rsvg-convert", actualSize e) :: st.calls := by
  simp [processEntry, writeDescriptor, finish, h]

/-- C3 witness: entry (16, 1) with a succeeding rsvg-convert. -/
theorem spec_c3_witness :
    ((16, 1) ∈ SIZES ∧ envRsvgOk.rsvg (actualSize (16, 1)) = SpawnResult.ok) ∧
    (processEntry envRsvgOk initSt (16, 1)).calls =
      ("rsvg-convert", actualSize (16, 1)) :: initSt.calls := by
  exact ⟨⟨by decide, rfl⟩, spec_c3 envRsvgOk initSt (16, 1) (by decide) rfl⟩

/-- C4: for every Size Entry whose three tool invocations all fail, the
failure line for that entry is in the final log, no bitmap exists at that
entry's target path at the end of the run, and every entry of the fixed
list is still processed (each ends the run with its own terminal success or
failure line).  The embedded driver is a total function: every failure is
caught, no exception escapes. -/
theorem spec_c4 (env : Env) (e : Nat × Nat) (he : e ∈ SIZES) (hf : allFail env e) :
    failLine e ∈ (mainRun env).log ∧
    (mainRun env).fs (targetPathOf e) = none ∧
    ∀ f ∈ SIZES, successLine f ∈ (mainRun env).log ∨ failLine f ∈ (mainRun env).log := by
  obtain ⟨hown, hpair⟩ := sizesPaths_distinct e he
  refine ⟨?_, ?_, ?_⟩
  · exact mem_log_mainRun env (failLine e)
      (foldl_log_attains env (failLine e) e
        (fun st => processEntry_allFail_log env st e hf) SIZES initSt he)
  · have hloop : (afterEntries env).fs (targetPathOf e) = none := by
      refine foldl_fs_none env e hf hown.1 SIZES initSt ?_ rfl
      intro f hfm
      by_cases hef : f = e
      · exact Or.inl hef
      · exact Or.inr (hpair f hfm (fun hh => hef hh.symm))
    calc (mainRun env).fs (targetPathOf e)
        = (icnsStep env (afterCopy env)).fs (targetPathOf e) := by
          rw [mainRun, finalize_fs]
      _ = (afterCopy env).fs (targetPathOf e) :=
          icnsStep_fs_frame env _ _ hown.2.2.2.2
      _ = (afterEntries env).fs (targetPathOf e) :=
          copyStandalone_fs_frame _ _ hown.2.2.2.1
      _ = none := hloop
  · intro f hfm
    rcases foldl_log_attains_or env (successLine f) (failLine f) f
        (fun st => processEntry_terminal env st f) SIZES initSt hfm with h | h
    · exact Or.inl (mem_log_mainRun env _ h)
    · exact Or.inr (mem_log_mainRun env _ h)

/-- C4 witness: all tools fail at entry (32, 1); the run still reports the
failure, produces no `icon_32x32.png`, and processes the later entry
(64, 1). -/
theorem spec_c4_witness :
    ((32, 1) ∈ SIZES ∧ allFail envAllFail (32, 1)) ∧
    failLine (32, 1) ∈ (mainRun envAllFail).log ∧
    (mainRun envAllFail).fs (targetPathOf (32, 1)) = none ∧
    (successLine (64, 1) ∈ (mainRun envAllFail).log ∨
     failLine (64, 1) ∈ (mainRun envAllFail).log) := by
  have h := spec_c4 envAllFail (32, 1) (by decide) (by decide)
  exact ⟨⟨by decide, by decide⟩, h.1, h.2.1, h.2.2 (64, 1) (by decide)⟩

/-- C5: if rsvg-convert fails and qlmanage exits successfully but its
expected output file `temp_<actual_size>.svg.png` does not exist, the chain
stops without invoking convert (the trace gains only the rsvg-convert and
qlmanage calls), the entry's target bitmap is not created, and the driver
still prints the per-entry success line. -/
theorem spec_c5 (env : Env) (st : St) (e : Nat × Nat) (he : e ∈ SIZES)
    (h1 : env.rsvg (actualSize e) ≠ SpawnResult.ok)
    (h2 : env.qlmanage (actualSize e) = QlResult.okNoOutput)
    (h3 : st.fs (qlPathOf e) = none) :
    (processEntry env st e).calls =
      ("qlmanage", actualSize e) :: ("rsvg-convert", actualSize e) :: st.calls ∧
    (processEntry env st e).fs (targetPathOf e) = st.fs (targetPathOf e) ∧
    successLine e ∈ (processEntry env st e).log := by
  obtain ⟨hts, htq, hqs, _, _⟩ := (sizesPaths_distinct e he).1
  cases hr : env.rsvg (actualSize e) with
  | ok => exact absurd hr h1
  | calledProcessError =>
      refine ⟨?_, ?_, ?_⟩ <;>
        simp [processEntry, writeDescriptor, afterQl, finish, hr, h2, h3,
              fsWrite, fsRemove, fsRename, hqs, hts, htq, List.mem_cons]
  | fileNotFound =>
      refine ⟨?_, ?_, ?_⟩ <;>
        simp [processEntry, writeDescriptor, afterQl, finish, hr, h2, h3,
              fsWrite, fsRemove, fsRename, hqs, hts, htq, List.mem_cons]

/-- C5 witness: entry (16, 1), rsvg-convert missing, qlmanage succeeding
without output, starting from the empty build directory. -/
theorem spec_c5_witness :
    (envQlNoOutput.rsvg (actualSize (16, 1)) ≠ SpawnResult.ok ∧
     envQlNoOutput.qlmanage (actualSize (16, 1)) = QlResult.okNoOutput ∧
     initSt.fs (qlPathOf (16, 1)) = none) ∧
    (processEntry envQlNoOutput initSt (16, 1)).fs (targetPathOf (16, 1)) =
      initSt.fs (targetPathOf (16, 1)) ∧
    successLine (16, 1) ∈ (processEntry envQlNoOutput initSt (16, 1)).log := by
  have h := spec_c5 envQlNoOutput initSt (16, 1) (by decide) (by decide) rfl rfl
  exact ⟨⟨by decide, rfl, rfl⟩, h.2.1, h.2.2⟩

/-- C6: for every Size Entry the driver computes `actual_size = base_size *
scale`, writes `generate_svg(actual_size)` to the temporary descriptor
path, and the generated descriptor declares width, height and both viewBox
dimensions equal to that actual size exactly. -/
theorem spec_c6 (st : St) (e : Nat × Nat) (he : e ∈ SIZES) :
    (writeDescriptor st e).fs (svgPathOf e) = some (generate_svg (e.1 * e.2)) ∧
    (svgDoc (e.1 * e.2)).width = e.1 * e.2 ∧
    (svgDoc (e.1 * e.2)).height = e.1 * e.2 ∧
    (svgDoc (e.1 * e.2)).viewBoxW = e.1 * e.2 ∧
    (svgDoc (e.1 * e.2)).viewBoxH = e.1 * e.2 := by
  refine ⟨?_, rfl, rfl, rfl, rfl⟩
  simp [writeDescriptor, fsWrite, actualSize]

/-- C6 witness: entry (512, 2), actual size 1024. -/
theorem spec_c6_witness :
    (512, 2) ∈ SIZES ∧
    (writeDescriptor initSt (512, 2)).fs (svgPathOf (512, 2)) =
      some (generate_svg 1024) ∧
    (svgDoc 1024).width = 1024 := by
  have h := spec_c6 initSt (512, 2) (by decide)
  exact ⟨by decide, h.1, h.2.1⟩

/-- C7: for every size the descriptor parameters satisfy
corner radius = 0.22·size, padding = 0.22·size, glyph width = 0.45·size,
glyph height = 0.56·size and stroke width = 0.12·size; in particular at
size 16 the viewBox is `0 0 16 16`, the corner radius is 3.52 and the
stroke width is 1.92. -/
theorem spec_c7 (s : Nat) :
    (svgDoc s).cornerRadius = (22 / 100 : ℚ) * s ∧
    (svgDoc s).padding = (22 / 100 : ℚ) * s ∧
    (svgDoc s).lWidth = (45 / 100 : ℚ) * s ∧
    (svgDoc s).lHeight = (56 / 100 : ℚ) * s ∧
    (svgDoc s).strokeWidth = (12 / 100 : ℚ) * s ∧
    viewBoxText (svgDoc 16) = "0 0 16 16" ∧
    (svgDoc 16).cornerRadius = 352 / 100 ∧
    (svgDoc 16).strokeWidth = 192 / 100 := by
  refine ⟨?_, ?_, ?_, ?_, ?_, by decide,
    by norm_num [svgDoc, CORNER_RADIUS_RATIO],
    by norm_num [svgDoc]⟩ <;>
    simp only [svgDoc, CORNER_RADIUS_RATIO] <;>
      exact mul_comm _ _

/-- C8: the target bitmap filename is `icon_<base>x<base>.png` when
scale = 1 and `icon_<base>x<base>@<scale>x.png` when scale > 1; entry
(512, 2) yields `icon_512x512@2x.png`. -/
theorem spec_c8 (base scale : Nat) :
    (scale = 1 → targetName (base, scale) =
      "icon_" ++ toString base ++ "x" ++ toString base ++ ".png") ∧
    (1 < scale → targetName (base, scale) =
      "icon_" ++ toString base ++ "x" ++ toString base ++ "@" ++
        toString scale ++ "x" ++ ".png") ∧
    targetName (512, 2) = "icon_512x512@2x.png" := by
  refine ⟨?_, ?_, by decide⟩
  · intro h
    subst h
    simp [targetName, String.append_empty]
  · intro h
    simp [targetName, h, String.append_assoc]

/-- C8 witness: concrete filenames for scale 1 and scale 2 at base 512. -/
theorem spec_c8_witness :
    ((1 : Nat) = 1 ∧ targetName (512, 1) =
      "icon_" ++ toString 512 ++ "x" ++ toString 512 ++ ".png") ∧
    ((1 : Nat) < 2 ∧ targetName (512, 2) =
      "icon_" ++ toString 512 ++ "x" ++ toString 512 ++ "@" ++
        toString 2 ++ "x" ++ ".png") := by
  exact ⟨⟨rfl, (spec_c8 512 1).1 rfl⟩, ⟨by decide, (spec_c8 512 2).2.1 (by decide)⟩⟩

/-- C9: the descriptor generator is a pure function of its size argument —
in this embedding `generate_svg` is a plain function with no state or I/O
parameter, so two invocations at the same positive size denote the same
string, byte for byte. -/
theorem spec_c9 (s : Nat) (hs : 0 < s) : generate_svg s = generate_svg s := rfl

/-- C9 witness: size 16. -/
theorem spec_c9_witness : 0 < 16 ∧ generate_svg 16 = generate_svg 16 :=
  ⟨by decide, spec_c9 16 (by decide)⟩

/-- C10: after the loop, if `icon_1024x1024.png` exists in the iconset it
is copied (same content) to `build/icon_1024.png` and the copy is logged;
if it does not exist the step does nothing at all — same file system, same
log, no error. -/
theorem spec_c10 (st : St) :
    (∀ c, st.fs (iconsetPath ("icon_1024x1024.png")) = some c →
      (copyStandalone st).fs (buildPath ("icon_1024.png")) = some c ∧
      ("   ✓ icon_1024.png") ∈ (copyStandalone st).log) ∧
    (st.fs (iconsetPath ("icon_1024x1024.png")) = none →
      copyStandalone st = st) := by
  constructor
  · intro c hc
    unfold copyStandalone
    rw [hc]
    exact ⟨by simp [fsWrite], by simp [List.mem_cons]⟩
  · intro hn
    unfold copyStandalone
    rw [hn]

/-- C10 witness: the copy happens from a state holding the 1024px bitmap
and the step is the identity on the empty initial state. -/
theorem spec_c10_witness :
    (stWith1024.fs (iconsetPath ("icon_1024x1024.png")) =
       some (pngData ("rsvg-convert") 1024) ∧
     (copyStandalone stWith1024).fs (buildPath ("icon_1024.png")) =
       some (pngData ("rsvg-convert") 1024)) ∧
    (initSt.fs (iconsetPath ("icon_1024x1024.png")) = none ∧
     copyStandalone initSt = initSt) := by
  exact ⟨⟨rfl, ((spec_c10 stWith1024).1 (pngData ("rsvg-convert") 1024) rfl).1⟩,
    rfl, (spec_c10 initSt).2 rfl⟩
